import Mathlib

/-!
# Verification of the breakout game simulation engine

A shallow embedding of the game's per-frame pipeline:

* constants (`globals.js`),
* the state model (`state.js` typedefs),
* the state transition `updateState` with its sub-steps
  (`updatePause`, `updateServingPaddle`, `updatePowerups`,
  `updatePaddle`, `updateBall`),
* the collision detectors (`collision-detectors.js`), and
* the collision handlers (`collision-handlers.js`),

followed by theorems checking the specification's claims about them.

JavaScript numbers are modelled as real numbers (`ℝ`); the game performs
ordinary field arithmetic and trigonometry on them and no claim depends on
floating-point rounding.  Powerup timers only ever hold integers
(initialised to `30 * 60` and decremented by 1), so `timer` is modelled
as `ℤ`.  `Math.random` (only used by `randomPowerup` inside
`createState`) is modelled as an oracle parameter assigning an optional
powerup to each created brick.
-/

namespace Pong

/-! ## Constants (`globals.js`) -/

def BALL_RADIUS : ℝ := 7.5
def BALL_SPEED : ℝ := 5
def PADDLE_WIDTH : ℝ := 80
def PADDLE_HEIGHT : ℝ := 15
def PADDLE_SPEED : ℝ := 2
def PADDLE_OFFSET_Y : ℝ := 20
def BRICK_WIDTH : ℝ := 50
def BRICK_HEIGHT : ℝ := 25
def BRICK_COLS : ℕ := 8
def BRICK_ROWS : ℕ := 4
def POWERUP_DROP_SPEED : ℝ := 2

/-! ## State model (`state.js`) -/

@[ext] structure Pos where
  x : ℝ
  y : ℝ

@[ext] structure Boundaries where
  xMin : ℝ
  xMax : ℝ
  yMin : ℝ
  yMax : ℝ

@[ext] structure Ball where
  pos : Pos
  speed : ℝ
  angle : ℝ

@[ext] structure Paddle where
  pos : Pos
  width : ℝ
  desiredWidth : ℝ

/-- A powerup.  Its `type` field is always the string `"expander"` in the
source (the only powerup type), so it is omitted here; the source's
`powerup.type === "expander"` tests are always true. -/
@[ext] structure Powerup where
  active : Bool
  pos : Option Pos
  timer : ℤ

@[ext] structure Brick where
  pos : Pos
  powerup : Option Powerup

@[ext] structure GameState where
  isPaused : Bool
  isServing : Bool
  boundaries : Boundaries
  ball : Ball
  paddle : Paddle
  bricks : List Brick
  score : ℤ × ℤ
  powerups : List Powerup

/-- The input collector: "is logical key K currently held".  The game reads
exactly the keys `"p"`, `" "` (space), `"ArrowLeft"`, `"ArrowRight"`. -/
@[ext] structure Inputs where
  pauseKey : Bool
  space : Bool
  arrowLeft : Bool
  arrowRight : Bool
  deriving DecidableEq

/-! ## State transition (`state.js`, functions `updatePause` …
`updateState`).

The source deep-clones the old state and mutates the clone; here each
update step is a function from the (partially updated) new state and the
old state to the next partially updated state, mirroring the source's
`updateX(state, oldState, inputs)` signatures. -/

/-- `updatePause`: toggle `isPaused` when the `"p"` key is held and consume
the key.  The source mutates the shared input set (`inputs.delete("p")`);
here the updated input set is returned alongside the state. -/
def updatePause (s : GameState) (ins : Inputs) : GameState × Inputs :=
  if ins.pauseKey then
    ({ s with isPaused := !s.isPaused }, { ins with pauseKey := false })
  else (s, ins)

/-- `updateServingPaddle`: release the ball when the old state was serving
and the space bar is held. -/
def updateServingPaddle (s oldS : GameState) (ins : Inputs) : GameState :=
  if oldS.isServing && ins.space then { s with isServing := false } else s

/-- One falling step of a powerup that has a position
(`powerup.pos.y += POWERUP_DROP_SPEED`). -/
def fallPowerup (pu : Powerup) : Powerup :=
  match pu.pos with
  | none => pu
  | some p => { pu with pos := some { p with y := p.y + POWERUP_DROP_SPEED } }

/-- The loop body of `updatePowerups`.  The source iterates
`for (const powerup of state.powerups)` over the live array and removes
expired powerups with `splice`, which shifts the next element into the
current position; the array iterator has already moved past that position,
so the shifted element is skipped for this frame.  The accumulator threads
the powerup list being rebuilt and `paddle.desiredWidth` (the `expander`
missed-powerup penalty subtracts 10 from it). -/
def runPowerups : List Powerup → ℝ → List Powerup × ℝ
  | [], dw => ([], dw)
  | pu :: rest, dw =>
    if pu.pos.isSome then
      (fallPowerup pu :: (runPowerups rest dw).1, (runPowerups rest dw).2)
    else if pu.timer - 1 ≤ 0 then
      match rest with
      | [] => ([], dw - 10)
      | q :: rest' => (q :: (runPowerups rest' (dw - 10)).1, (runPowerups rest' (dw - 10)).2)
    else
      ({ pu with timer := pu.timer - 1 } :: (runPowerups rest dw).1, (runPowerups rest dw).2)

/-- `updatePowerups`: advance falling powerups, count down dormant ones,
and remove (with the width penalty) the expired ones. -/
def updatePowerups (s : GameState) : GameState :=
  let r := runPowerups s.powerups s.paddle.desiredWidth
  { s with powerups := r.1, paddle := { s.paddle with desiredWidth := r.2 } }

/-- `updatePaddle`: move the paddle by `PADDLE_SPEED` toward a held arrow
key, clamped to `[xMin + width/2, xMax - width/2]` computed from the OLD
paddle's width, then animate `width` one unit toward `desiredWidth`.
When both arrow keys are held the second write wins, exactly as in the
source (both read `oldState.paddle.pos.x`). -/
noncomputable def updatePaddle (s oldS : GameState) (ins : Inputs) : GameState :=
  let xMin := oldS.boundaries.xMin + oldS.paddle.width / 2
  let xMax := oldS.boundaries.xMax - oldS.paddle.width / 2
  let x1 := if ins.arrowLeft then max xMin (oldS.paddle.pos.x - PADDLE_SPEED) else s.paddle.pos.x
  let x2 := if ins.arrowRight then min xMax (oldS.paddle.pos.x + PADDLE_SPEED) else x1
  let w :=
    if s.paddle.width < s.paddle.desiredWidth then
      min s.paddle.desiredWidth (s.paddle.width + 1)
    else if s.paddle.width > s.paddle.desiredWidth then
      max s.paddle.desiredWidth (s.paddle.width - 1)
    else s.paddle.width
  { s with paddle := { s.paddle with pos := { s.paddle.pos with x := x2 }, width := w } }

/-- `updateBall`: while serving the ball is slaved to the paddle (speed 0,
angle 0, centred on the paddle, pushed up by
`PADDLE_HEIGHT/2 + BALL_RADIUS + 1`); otherwise, if the old speed is 0 the
ball was just released, so speed and angle become the launch values
(`BALL_SPEED`, straight up `-π/2`); then the position advances from the OLD
position by `speed * (cos angle, sin angle)`. -/
noncomputable def updateBall (s oldS : GameState) : GameState :=
  if s.isServing then
    { s with ball :=
      { pos := { x := s.paddle.pos.x
               , y := s.paddle.pos.y - (PADDLE_HEIGHT / 2 + BALL_RADIUS + 1) }
      , speed := 0, angle := 0 } }
  else
    let speed := if oldS.ball.speed = 0 then BALL_SPEED else oldS.ball.speed
    let angle := if oldS.ball.speed = 0 then -(Real.pi / 2) else oldS.ball.angle
    { s with ball :=
      { pos := { x := oldS.ball.pos.x + speed * Real.cos angle
               , y := oldS.ball.pos.y + speed * Real.sin angle }
      , speed := if oldS.ball.speed = 0 then speed else s.ball.speed
      , angle := if oldS.ball.speed = 0 then angle else s.ball.angle } }

/-- The body of `updateState` after the pause toggle: if the (possibly
toggled) state is paused nothing else runs, otherwise the four update
steps run in source order, each receiving the original old state and the
(possibly `"p"`-consumed) inputs. -/
noncomputable def runUpdates (s1 oldS : GameState) (ins : Inputs) : GameState :=
  if s1.isPaused then s1
  else updateBall (updatePaddle (updatePowerups (updateServingPaddle s1 oldS ins)) oldS ins) oldS

/-- `updateState`: the per-frame state transition. -/
noncomputable def updateState (s : GameState) (ins : Inputs) : GameState :=
  let p := updatePause s ins
  runUpdates p.1 s p.2

/-- `createState`: the initial state.  The canvas argument is passed as its
width and height.  `randomPowerup` draws `Math.random`, so the powerup
assignment of the brick grid is an oracle parameter `rand` indexed by brick
creation order (row-major, `BRICK_ROWS` rows of `BRICK_COLS` bricks). -/
noncomputable def createState (width height : ℝ) (rand : ℕ → Option Powerup) : GameState :=
  { isPaused := false
  , isServing := true
  , score := (0, 0)
  , boundaries := { xMin := 0, xMax := width, yMin := 0, yMax := height }
  , ball :=
    { pos := { x := width / 2, y := PADDLE_OFFSET_Y + PADDLE_HEIGHT / 2 }
    , angle := Real.pi / 3
    , speed := 3 }
  , paddle :=
    { pos := { x := width / 2, y := height - PADDLE_OFFSET_Y }
    , width := PADDLE_WIDTH
    , desiredWidth := PADDLE_WIDTH }
  , bricks := (List.range (BRICK_ROWS * BRICK_COLS)).map fun k =>
      { pos := { x := 40 + (k % BRICK_COLS : ℕ) * (BRICK_WIDTH + 10)
               , y := 40 + (k / BRICK_COLS : ℕ) * (BRICK_HEIGHT + 10) }
      , powerup := rand k }
  , powerups := [] }

/-! ## Collision detection (`collision-detectors.js`).

The source accumulates collision records into a JS `Set`; every `add`
inserts a fresh object, so the set is just an insertion-ordered sequence,
modelled as a list.  The detectors run in the fixed order wall, brick,
paddle, powerup. -/

inductive Wall where
  | left | right | top | bottom
  deriving DecidableEq

inductive Side where
  | top | left | right | bottom
  deriving DecidableEq

/-- A collision event.  The `powerup.paddle` record holds a reference to
the powerup object inside `state.powerups`; since that list is not
reordered between detection and resolution, the reference is modelled as
the powerup's index in `state.powerups`. -/
inductive Collision where
  | ballPaddle : Collision
  | ballWall : Wall → Collision
  | ballBrick : ℕ → Side → Collision
  | powerupPaddle : ℕ → Collision
  deriving DecidableEq

/-- `detectBallWallCollision`: each of the four boundary checks fires
independently.  Note the source's top check is `pos.y + BALL_RADIUS < yMin`
and its bottom check is `pos.y - BALL_RADIUS > yMax`. -/
noncomputable def detectBallWallCollision (s : GameState) : List Collision :=
  (if s.ball.pos.x - BALL_RADIUS < s.boundaries.xMin then [.ballWall .left] else []) ++
  (if s.ball.pos.x + BALL_RADIUS > s.boundaries.xMax then [.ballWall .right] else []) ++
  (if s.ball.pos.y + BALL_RADIUS < s.boundaries.yMin then [.ballWall .top] else []) ++
  (if s.ball.pos.y - BALL_RADIUS > s.boundaries.yMax then [.ballWall .bottom] else [])

/-- The side-classification cascade of `detectBallBrickCollision`, applied
to the OLD ball position. -/
noncomputable def brickSide (oldBall : Ball) (brick : Brick) : Side :=
  if oldBall.pos.y - BALL_RADIUS ≥ brick.pos.y + BRICK_HEIGHT / 2 then .bottom
  else if oldBall.pos.y + BALL_RADIUS ≤ brick.pos.y - BRICK_HEIGHT / 2 then .top
  else if oldBall.pos.x - BALL_RADIUS ≥ brick.pos.x + BRICK_WIDTH / 2 then .right
  else .left

/-- The AABB overlap test of `detectBallBrickCollision` between the new
ball's bounding box and a brick's box (all four comparisons strict). -/
def ballBrickOverlap (ball : Ball) (brick : Brick) : Prop :=
  ball.pos.x + BALL_RADIUS > brick.pos.x - BRICK_WIDTH / 2 ∧
  ball.pos.x - BALL_RADIUS < brick.pos.x + BRICK_WIDTH / 2 ∧
  ball.pos.y + BALL_RADIUS > brick.pos.y - BRICK_HEIGHT / 2 ∧
  ball.pos.y - BALL_RADIUS < brick.pos.y + BRICK_HEIGHT / 2

/-- Overlap between ball and brick boxes is a conjunction of real-number
comparisons, hence classically decidable. -/
noncomputable instance (ball : Ball) (brick : Brick) : Decidable (ballBrickOverlap ball brick) := by
  unfold ballBrickOverlap; infer_instance

/-- `detectBallBrickCollision`: one `ball.brick` event per overlapped
brick, carrying the brick's current index and the side classified from the
old ball position. -/
noncomputable def detectBallBrickCollision (s oldS : GameState) : List Collision :=
  (List.range s.bricks.length).filterMap fun i =>
    (s.bricks.get? i).bind fun brick =>
      if ballBrickOverlap s.ball brick then
        some (.ballBrick i (brickSide oldS.ball brick))
      else none

/-- `detectBallPaddleCollision`: strict overlap of the new ball's centre
point with the paddle's box. -/
noncomputable def detectBallPaddleCollision (s : GameState) : List Collision :=
  if s.ball.pos.x > s.paddle.pos.x - s.paddle.width / 2 ∧
     s.ball.pos.x < s.paddle.pos.x + s.paddle.width / 2 ∧
     s.ball.pos.y > s.paddle.pos.y - PADDLE_HEIGHT / 2 ∧
     s.ball.pos.y < s.paddle.pos.y + PADDLE_HEIGHT / 2
  then [.ballPaddle] else []

/-- `detectPowerupPaddleCollision`: for every powerup with a position,
strict overlap of that position with the paddle's box. -/
noncomputable def detectPowerupPaddleCollision (s : GameState) : List Collision :=
  (List.range s.powerups.length).filterMap fun i =>
    (s.powerups.get? i).bind fun pu =>
      match pu.pos with
      | none => none
      | some p =>
        if p.x > s.paddle.pos.x - s.paddle.width / 2 ∧
           p.x < s.paddle.pos.x + s.paddle.width / 2 ∧
           p.y > s.paddle.pos.y - PADDLE_HEIGHT / 2 ∧
           p.y < s.paddle.pos.y + PADDLE_HEIGHT / 2
        then some (.powerupPaddle i) else none

/-- `detectCollisions`: union (insertion-ordered) of the four detectors. -/
noncomputable def detectCollisions (s oldS : GameState) : List Collision :=
  detectBallWallCollision s ++ detectBallBrickCollision s oldS ++
  detectBallPaddleCollision s ++ detectPowerupPaddleCollision s

/-! ## Collision resolution (`collision-handlers.js`). -/

/-- `handleBallWallCollision`: `bottom` re-enters serving; `left`/`right`
mirror the OLD angle horizontally (`π - angle`) and recompute x from the
old position with the old speed; `top` negates the CURRENT angle and
recomputes y from the old position with the old speed. -/
noncomputable def handleBallWallCollision (w : Wall) (s oldS : GameState) : GameState :=
  match w with
  | .bottom => { s with isServing := true }
  | .left | .right =>
    let angle := Real.pi - oldS.ball.angle
    { s with ball := { s.ball with
        angle := angle,
        pos := { s.ball.pos with x := oldS.ball.pos.x + oldS.ball.speed * Real.cos angle } } }
  | .top =>
    let angle := -s.ball.angle
    { s with ball := { s.ball with
        angle := angle,
        pos := { s.ball.pos with y := oldS.ball.pos.y + oldS.ball.speed * Real.sin angle } } }

/-- `handleBallBrickCollision`: reflect the angle (horizontally for
`left`/`right`, vertically otherwise, exactly as for walls), then
`splice` the brick at the event's index out of `state.bricks`; if that
brick carried a powerup, push it onto `state.powerups` with its position
set to the brick's position.  A JS `splice` at an out-of-range index
removes nothing and yields `undefined` (on which the source's
destructuring of `brick` would throw); that branch is modelled as
removing and pushing nothing. -/
noncomputable def handleBallBrickCollision (idx : ℕ) (side : Side) (s oldS : GameState) :
    GameState :=
  let s1 :=
    match side with
    | .left | .right =>
      let angle := Real.pi - oldS.ball.angle
      { s with ball := { s.ball with
          angle := angle,
          pos := { s.ball.pos with x := oldS.ball.pos.x + oldS.ball.speed * Real.cos angle } } }
    | _ =>
      let angle := -s.ball.angle
      { s with ball := { s.ball with
          angle := angle,
          pos := { s.ball.pos with y := oldS.ball.pos.y + oldS.ball.speed * Real.sin angle } } }
  match s1.bricks.get? idx with
  | none => { s1 with bricks := s1.bricks.eraseIdx idx }
  | some brick =>
    let s2 := { s1 with bricks := s1.bricks.eraseIdx idx }
    match brick.powerup with
    | none => s2
    | some pu => { s2 with powerups := s2.powerups ++ [{ pu with pos := some brick.pos }] }

/-- `handleBallPaddleCollision`: tilt proportional to the hit offset from
the OLD paddle's centre, normalised by `(old width + 20)` and scaled by π;
the branch is chosen by `Math.asin(Math.sin(oldAngle)) > 0`; y is
recomputed from the old position with the old speed and the new angle. -/
noncomputable def handleBallPaddleCollision (s oldS : GameState) : GameState :=
  let tilt := Real.pi * ((s.ball.pos.x - oldS.paddle.pos.x) / (oldS.paddle.width + 20))
  let angle :=
    if Real.arcsin (Real.sin oldS.ball.angle) > 0 then -(Real.pi / 2) + tilt
    else Real.pi / 2 - tilt
  { s with ball := { s.ball with
      angle := angle,
      pos := { s.ball.pos with y := oldS.ball.pos.y + oldS.ball.speed * Real.sin angle } } }

/-- `handlePowerupPaddleCollision`: the caught powerup (a shared reference
into `state.powerups`, modelled by its index) is cleared of its position,
marked active, and `desiredWidth` grows by 10 (its `type` is always
`"expander"`). -/
def handlePowerupPaddleCollision (idx : ℕ) (s : GameState) : GameState :=
  { s with
    powerups := s.powerups.modify (fun pu => { pu with pos := none, active := true }) idx
  , paddle := { s.paddle with desiredWidth := s.paddle.desiredWidth + 10 } }

/-- `handleCollisions`: fold the handlers over the event list in order. -/
noncomputable def handleCollisions (cs : List Collision) (s oldS : GameState) : GameState :=
  cs.foldl
    (fun st c =>
      match c with
      | .ballBrick i side => handleBallBrickCollision i side st oldS
      | .ballWall w => handleBallWallCollision w st oldS
      | .ballPaddle => handleBallPaddleCollision st oldS
      | .powerupPaddle i => handlePowerupPaddleCollision i st)
    s

/-- One full frame of the driver loop (`main`): transition, then collision
detection, then collision resolution. -/
noncomputable def frame (s : GameState) (ins : Inputs) : GameState :=
  let t := updateState s ins
  handleCollisions (detectCollisions t s) t s

/-! ## Framing lemmas: fields each update step leaves untouched. -/

theorem updatePause_bulk (s : GameState) (ins : Inputs) :
    (updatePause s ins).1.isServing = s.isServing ∧
    (updatePause s ins).1.ball = s.ball ∧
    (updatePause s ins).1.paddle = s.paddle ∧
    (updatePause s ins).1.boundaries = s.boundaries ∧
    (updatePause s ins).1.bricks = s.bricks ∧
    (updatePause s ins).1.powerups = s.powerups := by
  unfold updatePause; split <;> exact ⟨rfl, rfl, rfl, rfl, rfl, rfl⟩

@[simp] theorem updateServingPaddle_ball (s oldS : GameState) (ins : Inputs) :
    (updateServingPaddle s oldS ins).ball = s.ball := by
  unfold updateServingPaddle; split <;> rfl

@[simp] theorem updateServingPaddle_paddle (s oldS : GameState) (ins : Inputs) :
    (updateServingPaddle s oldS ins).paddle = s.paddle := by
  unfold updateServingPaddle; split <;> rfl

@[simp] theorem updateServingPaddle_powerups (s oldS : GameState) (ins : Inputs) :
    (updateServingPaddle s oldS ins).powerups = s.powerups := by
  unfold updateServingPaddle; split <;> rfl

@[simp] theorem updateServingPaddle_isPaused (s oldS : GameState) (ins : Inputs) :
    (updateServingPaddle s oldS ins).isPaused = s.isPaused := by
  unfold updateServingPaddle; split <;> rfl

@[simp] theorem updateServingPaddle_boundaries (s oldS : GameState) (ins : Inputs) :
    (updateServingPaddle s oldS ins).boundaries = s.boundaries := by
  unfold updateServingPaddle; split <;> rfl

@[simp] theorem updateServingPaddle_bricks (s oldS : GameState) (ins : Inputs) :
    (updateServingPaddle s oldS ins).bricks = s.bricks := by
  unfold updateServingPaddle; split <;> rfl

@[simp] theorem updateServingPaddle_isServing (s oldS : GameState) (ins : Inputs) :
    (updateServingPaddle s oldS ins).isServing =
      (if oldS.isServing && ins.space then false else s.isServing) := by
  unfold updateServingPaddle; split <;> rfl

@[simp] theorem updatePowerups_ball (s : GameState) :
    (updatePowerups s).ball = s.ball := rfl

@[simp] theorem updatePowerups_isPaused (s : GameState) :
    (updatePowerups s).isPaused = s.isPaused := rfl

@[simp] theorem updatePowerups_isServing (s : GameState) :
    (updatePowerups s).isServing = s.isServing := rfl

@[simp] theorem updatePowerups_boundaries (s : GameState) :
    (updatePowerups s).boundaries = s.boundaries := rfl

@[simp] theorem updatePowerups_bricks (s : GameState) :
    (updatePowerups s).bricks = s.bricks := rfl

@[simp] theorem updatePowerups_paddle_pos (s : GameState) :
    (updatePowerups s).paddle.pos = s.paddle.pos := rfl

@[simp] theorem updatePowerups_paddle_width (s : GameState) :
    (updatePowerups s).paddle.width = s.paddle.width := rfl

@[simp] theorem updatePaddle_ball (s oldS : GameState) (ins : Inputs) :
    (updatePaddle s oldS ins).ball = s.ball := rfl

@[simp] theorem updatePaddle_isPaused (s oldS : GameState) (ins : Inputs) :
    (updatePaddle s oldS ins).isPaused = s.isPaused := rfl

@[simp] theorem updatePaddle_isServing (s oldS : GameState) (ins : Inputs) :
    (updatePaddle s oldS ins).isServing = s.isServing := rfl

@[simp] theorem updatePaddle_boundaries (s oldS : GameState) (ins : Inputs) :
    (updatePaddle s oldS ins).boundaries = s.boundaries := rfl

@[simp] theorem updatePaddle_bricks (s oldS : GameState) (ins : Inputs) :
    (updatePaddle s oldS ins).bricks = s.bricks := rfl

@[simp] theorem updatePaddle_powerups (s oldS : GameState) (ins : Inputs) :
    (updatePaddle s oldS ins).powerups = s.powerups := rfl

@[simp] theorem updatePaddle_paddle_pos_y (s oldS : GameState) (ins : Inputs) :
    (updatePaddle s oldS ins).paddle.pos.y = s.paddle.pos.y := rfl

@[simp] theorem updatePaddle_paddle_desiredWidth (s oldS : GameState) (ins : Inputs) :
    (updatePaddle s oldS ins).paddle.desiredWidth = s.paddle.desiredWidth := rfl

@[simp] theorem updateBall_paddle (s oldS : GameState) :
    (updateBall s oldS).paddle = s.paddle := by
  unfold updateBall; split <;> rfl

@[simp] theorem updateBall_isPaused (s oldS : GameState) :
    (updateBall s oldS).isPaused = s.isPaused := by
  unfold updateBall; split <;> rfl

@[simp] theorem updateBall_isServing (s oldS : GameState) :
    (updateBall s oldS).isServing = s.isServing := by
  unfold updateBall; split <;> rfl

@[simp] theorem updateBall_boundaries (s oldS : GameState) :
    (updateBall s oldS).boundaries = s.boundaries := by
  unfold updateBall; split <;> rfl

@[simp] theorem updateBall_bricks (s oldS : GameState) :
    (updateBall s oldS).bricks = s.bricks := by
  unfold updateBall; split <;> rfl

@[simp] theorem updateBall_powerups (s oldS : GameState) :
    (updateBall s oldS).powerups = s.powerups := by
  unfold updateBall; split <;> rfl

/-! ## C1: ball–wall detection vs. the nearest-edge boundary test. -/

/-- A state whose ball's top edge has crossed the top boundary
(`pos.y - BALL_RADIUS < yMin` holds at `y = -1`). -/
def topCrossedState : GameState :=
  { isPaused := false, isServing := false
  , boundaries := { xMin := 0, xMax := 800, yMin := 0, yMax := 600 }
  , ball := { pos := { x := 100, y := -1 }, speed := 5, angle := 0 }
  , paddle := { pos := { x := 400, y := 580 }, width := 80, desiredWidth := 80 }
  , bricks := [], score := (0, 0), powerups := [] }

/-- A state whose ball's bottom edge has crossed the bottom boundary
(`pos.y + BALL_RADIUS > yMax` holds at `y = 605`). -/
def bottomCrossedState : GameState :=
  { topCrossedState with ball := { pos := { x := 100, y := 605 }, speed := 5, angle := 0 } }

/-- **C1.** The claim says a top-wall event is reported exactly when
`ball.pos.y - BALL_RADIUS < yMin` and a bottom-wall event exactly when
`ball.pos.y + BALL_RADIUS > yMax`.  The detector's top check is
`pos.y + BALL_RADIUS < yMin` and its bottom check `pos.y - BALL_RADIUS > yMax`
(the whole ball must be outside, not its nearest edge): at `y = -1` the top
edge has crossed the top boundary and at `y = 605` the bottom edge has
crossed the bottom boundary, yet the detector reports no event at all. -/
theorem C1_wall_detection_misses_crossed_edges :
    topCrossedState.ball.pos.y - BALL_RADIUS < topCrossedState.boundaries.yMin ∧
    detectBallWallCollision topCrossedState = [] ∧
    bottomCrossedState.ball.pos.y + BALL_RADIUS > bottomCrossedState.boundaries.yMax ∧
    detectBallWallCollision bottomCrossedState = [] := by
  refine ⟨by norm_num [topCrossedState, BALL_RADIUS], ?_,
    by norm_num [bottomCrossedState, topCrossedState, BALL_RADIUS], ?_⟩ <;>
    norm_num [detectBallWallCollision, topCrossedState, bottomCrossedState, BALL_RADIUS]

/-! ## C2: the serving invariant. -/

/-- The empty input set. -/
def noInputs : Inputs :=
  { pauseKey := false, space := false, arrowLeft := false, arrowRight := false }

/-- The input set holding only the space bar. -/
def spaceInput : Inputs :=
  { pauseKey := false, space := true, arrowLeft := false, arrowRight := false }

/-- An unpaused serving state with the ball already slaved to the paddle. -/
def servingState : GameState :=
  { isPaused := false, isServing := true
  , boundaries := { xMin := 0, xMax := 800, yMin := 0, yMax := 600 }
  , ball := { pos := { x := 400, y := 556.5 }, speed := 0, angle := 0 }
  , paddle := { pos := { x := 400, y := 580 }, width := 80, desiredWidth := 80 }
  , bricks := [], score := (0, 0), powerups := [] }

/-- **C2 (amended).** Every unpaused post-transition state with
`isServing = true` has ball speed exactly 0 and ball position exactly the
paddle centre offset by `(0, -(PADDLE_HEIGHT/2 + BALL_RADIUS + 1))`.  (The
initial `createState` state and the post-resolution state of the frame in
which a bottom-wall event re-enters serving are not of this form and
violate the invariant; see the counterexample.) -/
theorem C2_serving_transition_slaves_ball (s : GameState) (ins : Inputs)
    (hp : (updateState s ins).isPaused = false)
    (hs : (updateState s ins).isServing = true) :
    (updateState s ins).ball.speed = 0 ∧
    (updateState s ins).ball.pos.x = (updateState s ins).paddle.pos.x ∧
    (updateState s ins).ball.pos.y =
      (updateState s ins).paddle.pos.y - (PADDLE_HEIGHT / 2 + BALL_RADIUS + 1) := by
  unfold updateState runUpdates at hp hs ⊢
  by_cases h : (updatePause s ins).1.isPaused
  · rw [if_pos h] at hp
    rw [hp] at h
    exact absurd h (by simp)
  · rw [if_neg h] at hs ⊢
    rw [updateBall]
    rw [if_pos (by simpa using hs)]
    simp

/-- **C2 (counterexample).** The initial state produced by `createState`
has `isServing = true` but ball speed 3 (not 0) and a ball sitting near
the top of the arena rather than at the paddle-centre offset. -/
theorem C2_createState_violates_serving_invariant :
    (createState 800 600 fun _ => none).isServing = true ∧
    (createState 800 600 fun _ => none).ball.speed ≠ 0 ∧
    (createState 800 600 fun _ => none).ball.pos.y ≠
      (createState 800 600 fun _ => none).paddle.pos.y -
        (PADDLE_HEIGHT / 2 + BALL_RADIUS + 1) := by
  refine ⟨rfl, ?_, ?_⟩ <;>
    norm_num [createState, PADDLE_HEIGHT, BALL_RADIUS, PADDLE_OFFSET_Y]

/-- Witness for C2: the hypotheses hold at the concrete serving state and
empty inputs, and the theorem's conclusion follows there. -/
theorem C2_serving_transition_slaves_ball_witness :
    (updateState servingState noInputs).ball.speed = 0 ∧
    (updateState servingState noInputs).ball.pos.x =
      (updateState servingState noInputs).paddle.pos.x ∧
    (updateState servingState noInputs).ball.pos.y =
      (updateState servingState noInputs).paddle.pos.y -
        (PADDLE_HEIGHT / 2 + BALL_RADIUS + 1) :=
  C2_serving_transition_slaves_ball servingState noInputs
    (by simp [updateState, runUpdates, updatePause, servingState, noInputs])
    (by simp [updateState, runUpdates, updatePause, servingState, noInputs])

/-! ## C7: the launch frame. -/

/-- **C7 (amended).** On a launch frame (unpaused, serving, space held, no
pause toggle) whose serving state has ball speed 0 — as every serving state
produced by the pipeline does — the post-transition state has stopped
serving, ball speed `BALL_SPEED`, angle `-π/2`, and a position that is the
old position advanced one full step at that speed and angle.  (The initial
`createState` state is a serving state with ball speed 3, and launching
from it keeps speed 3 and angle π/3; see the counterexample.) -/
theorem C7_launch_frame_moves_ball (s : GameState) (ins : Inputs)
    (hp : s.isPaused = false) (hpk : ins.pauseKey = false)
    (hs : s.isServing = true) (hsp : ins.space = true)
    (hv : s.ball.speed = 0) :
    (updateState s ins).isServing = false ∧
    (updateState s ins).ball.speed = BALL_SPEED ∧
    (updateState s ins).ball.angle = -(Real.pi / 2) ∧
    (updateState s ins).ball.pos.x =
      s.ball.pos.x + BALL_SPEED * Real.cos (-(Real.pi / 2)) ∧
    (updateState s ins).ball.pos.y =
      s.ball.pos.y + BALL_SPEED * Real.sin (-(Real.pi / 2)) := by
  unfold updateState runUpdates updatePause
  rw [hpk]
  simp only [Bool.false_eq_true, if_false, hp, updateBall]
  simp [hs, hsp, hv]

/-- **C7 (counterexample).** Launching from the initial `createState`
state: `isServing` transitions true → false, but the ball keeps its
initial speed 3 — not the launch speed `BALL_SPEED = 5`. -/
theorem C7_initial_launch_keeps_speed_three :
    (createState 800 600 fun _ => none).isServing = true ∧
    (updateState (createState 800 600 fun _ => none) spaceInput).isServing = false ∧
    (updateState (createState 800 600 fun _ => none) spaceInput).ball.speed = 3 ∧
    (3 : ℝ) ≠ BALL_SPEED := by
  refine ⟨rfl, ?_, ?_, by norm_num [BALL_SPEED]⟩ <;>
    · unfold updateState runUpdates updatePause
      norm_num [createState, spaceInput, updateBall]

/-- Witness for C7: the launch-frame hypotheses hold at the concrete
serving state with the space bar held. -/
theorem C7_launch_frame_moves_ball_witness :
    (updateState servingState spaceInput).isServing = false ∧
    (updateState servingState spaceInput).ball.speed = BALL_SPEED ∧
    (updateState servingState spaceInput).ball.angle = -(Real.pi / 2) ∧
    (updateState servingState spaceInput).ball.pos.x =
      servingState.ball.pos.x + BALL_SPEED * Real.cos (-(Real.pi / 2)) ∧
    (updateState servingState spaceInput).ball.pos.y =
      servingState.ball.pos.y + BALL_SPEED * Real.sin (-(Real.pi / 2)) :=
  C7_launch_frame_moves_ball servingState spaceInput rfl rfl rfl rfl rfl

/-! ## C3: paddle clamping. -/

@[simp] theorem runPowerups_nil (dw : ℝ) : runPowerups [] dw = ([], dw) := rfl

/-- An unpaused serving state whose paddle sits at the left clamp boundary
for its current width 80 while `desiredWidth` is 90, so the width grows to
81 on the next frame. -/
def wideningPaddleState : GameState :=
  { isPaused := false, isServing := true
  , boundaries := { xMin := 0, xMax := 200, yMin := 0, yMax := 600 }
  , ball := { pos := { x := 40, y := 556.5 }, speed := 0, angle := 0 }
  , paddle := { pos := { x := 40, y := 580 }, width := 80, desiredWidth := 90 }
  , bricks := [], score := (0, 0), powerups := [] }

/-- **C3 (amended).** If the old paddle centre lies within
`[xMin + w/2, xMax - w/2]` for the OLD width `w`, the post-transition
paddle centre still lies within that same old-width interval (the source
clamps against the old width).  The claimed interval for the
post-transition width can be violated when the width grows; see the
counterexample. -/
theorem C3_paddle_stays_in_old_width_bounds (s : GameState) (ins : Inputs)
    (hlo : s.boundaries.xMin + s.paddle.width / 2 ≤ s.paddle.pos.x)
    (hhi : s.paddle.pos.x ≤ s.boundaries.xMax - s.paddle.width / 2) :
    s.boundaries.xMin + s.paddle.width / 2 ≤ (updateState s ins).paddle.pos.x ∧
    (updateState s ins).paddle.pos.x ≤ s.boundaries.xMax - s.paddle.width / 2 := by
  have hb := updatePause_bulk s ins
  have hps : PADDLE_SPEED = 2 := rfl
  have hlh : s.boundaries.xMin + s.paddle.width / 2 ≤
      s.boundaries.xMax - s.paddle.width / 2 := le_trans hlo hhi
  unfold updateState runUpdates
  by_cases h : (updatePause s ins).1.isPaused
  · rw [if_pos h, hb.2.2.1]
    exact ⟨hlo, hhi⟩
  · rw [if_neg h]
    simp only [updateBall_paddle]
    simp only [updatePaddle, updatePowerups_paddle_pos, updateServingPaddle_paddle,
      hb.2.2.1]
    split_ifs with h1 h2 <;> constructor
    · exact le_min hlh (by linarith)
    · exact min_le_left _ _
    · exact le_max_left _ _
    · exact max_le hlh (by linarith)
    · exact hlo
    · exact hhi

/-- **C3 (counterexample).** With no arrow key held and the width animating
80 → 81 toward `desiredWidth = 90`, the paddle centre stays at 40 but the
bound for the post-transition width is `xMin + 81/2 = 40.5`, so the claimed
interval is violated. -/
theorem C3_widening_paddle_escapes_new_bounds :
    (updateState wideningPaddleState noInputs).paddle.width = 81 ∧
    (updateState wideningPaddleState noInputs).paddle.pos.x = 40 ∧
    ¬ ((updateState wideningPaddleState noInputs).boundaries.xMin +
         (updateState wideningPaddleState noInputs).paddle.width / 2 ≤
       (updateState wideningPaddleState noInputs).paddle.pos.x) := by
  refine ⟨?_, ?_, ?_⟩ <;>
    norm_num [updateState, runUpdates, updatePause, updatePaddle, updateBall,
      updatePowerups, wideningPaddleState, noInputs, min_def]

/-- Witness for C3: the old-bounds hypotheses hold at the concrete serving
state (paddle at 400, width 80, arena `[0, 800]`). -/
theorem C3_paddle_stays_in_old_width_bounds_witness :
    servingState.boundaries.xMin + servingState.paddle.width / 2 ≤
      (updateState servingState noInputs).paddle.pos.x ∧
    (updateState servingState noInputs).paddle.pos.x ≤
      servingState.boundaries.xMax - servingState.paddle.width / 2 :=
  C3_paddle_stays_in_old_width_bounds servingState noInputs
    (by norm_num [servingState]) (by norm_num [servingState])

/-! ## C9: the pause toggle. -/

@[simp] theorem runUpdates_isPaused (s1 oldS : GameState) (ins : Inputs) :
    (runUpdates s1 oldS ins).isPaused = s1.isPaused := by
  unfold runUpdates; split
  · rfl
  · simp

/-- The input set holding only the pause key `"p"`. -/
def pauseInput : Inputs :=
  { pauseKey := true, space := false, arrowLeft := false, arrowRight := false }

/-- **C9.** When the inputs contain the pause key, the transition flips
`isPaused` — also when the game is already paused — and the whole
transition equals the remaining update steps run on the flag-flipped state
with the pause key removed from the inputs: the toggle happens before any
other step and is not skipped by the paused branch (`runUpdates` skips its
steps based on the already-toggled flag). -/
theorem C9_pause_toggle_runs_first_even_when_paused (s : GameState) (ins : Inputs)
    (h : ins.pauseKey = true) :
    (updateState s ins).isPaused = !s.isPaused ∧
    updateState s ins =
      runUpdates { s with isPaused := !s.isPaused } s { ins with pauseKey := false } := by
  unfold updateState updatePause
  rw [h]
  simp only [if_true]
  exact ⟨by simp, by trivial⟩

/-- Witness for C9: toggling at a concrete paused state. -/
theorem C9_pause_toggle_runs_first_even_when_paused_witness :
    (updateState servingState pauseInput).isPaused = !servingState.isPaused ∧
    updateState servingState pauseInput =
      runUpdates { servingState with isPaused := !servingState.isPaused } servingState
        { pauseInput with pauseKey := false } :=
  C9_pause_toggle_runs_first_even_when_paused servingState pauseInput rfl

/-! ## C8: a fully paused frame. -/

/-- A paused transition with no pause key held leaves the state unchanged
(the source returns the untouched clone). -/
theorem updateState_paused_identity (s : GameState) (ins : Inputs)
    (hp : s.isPaused = true) (hpk : ins.pauseKey = false) :
    updateState s ins = s := by
  unfold updateState updatePause
  rw [hpk]
  simp only [Bool.false_eq_true, if_false]
  unfold runUpdates
  rw [if_pos hp]

/-- A paused state whose ball sits exactly at the paddle centre: the
paddle-overlap detector fires every frame even though the game is
paused. -/
noncomputable def pausedOverlapState : GameState :=
  { isPaused := true, isServing := false
  , boundaries := { xMin := 0, xMax := 800, yMin := 0, yMax := 600 }
  , ball := { pos := { x := 200, y := 500 }, speed := 5, angle := -(Real.pi / 2) }
  , paddle := { pos := { x := 200, y := 500 }, width := 80, desiredWidth := 80 }
  , bricks := [], score := (0, 0), powerups := [] }

/-- A paused state with the ball far from every wall, brick and paddle:
nothing is detected while paused. -/
def pausedIdleState : GameState :=
  { isPaused := true, isServing := false
  , boundaries := { xMin := 0, xMax := 800, yMin := 0, yMax := 600 }
  , ball := { pos := { x := 100, y := 100 }, speed := 5, angle := 0 }
  , paddle := { pos := { x := 400, y := 580 }, width := 80, desiredWidth := 80 }
  , bricks := [], score := (0, 0), powerups := [] }

/-- **C8 (amended).** A paused frame (pause key not held) leaves the state
unchanged PROVIDED the paused state triggers no collision events: the
transition is the identity, but the driver still runs detection and
resolution on the unchanged state, so a paused state that overlaps a
collision condition is mutated by resolution; see the counterexample. -/
theorem frame_eq (s : GameState) (ins : Inputs) :
    frame s ins =
      handleCollisions (detectCollisions (updateState s ins) s) (updateState s ins) s := rfl

theorem C8_paused_frame_identity_without_collisions (s : GameState) (ins : Inputs)
    (hp : s.isPaused = true) (hpk : ins.pauseKey = false)
    (hc : detectCollisions s s = []) :
    frame s ins = s := by
  rw [frame_eq, updateState_paused_identity s ins hp hpk, hc]
  rfl

/-- **C8 (counterexample).** In a paused state with the ball at the paddle
centre, one full frame re-resolves the ball–paddle collision: the ball's
angle flips from `-π/2` to `π/2`, so the frame does **not** preserve the
state. -/
theorem C8_paused_frame_can_change_state :
    (frame pausedOverlapState noInputs).ball.angle = Real.pi / 2 ∧
    pausedOverlapState.ball.angle = -(Real.pi / 2) ∧
    (frame pausedOverlapState noInputs).ball.angle ≠ pausedOverlapState.ball.angle := by
  have hid : updateState pausedOverlapState noInputs = pausedOverlapState :=
    updateState_paused_identity _ _ rfl rfl
  have hdet : detectCollisions pausedOverlapState pausedOverlapState =
      [Collision.ballPaddle] := by
    unfold detectCollisions detectBallWallCollision detectBallBrickCollision
      detectBallPaddleCollision detectPowerupPaddleCollision
    norm_num [pausedOverlapState, BALL_RADIUS, PADDLE_HEIGHT]
  have hangle : (frame pausedOverlapState noInputs).ball.angle = Real.pi / 2 := by
    rw [frame_eq, hid, hdet]
    unfold handleCollisions
    simp only [List.foldl]
    unfold handleBallPaddleCollision
    have hneg : ¬ (Real.arcsin (Real.sin pausedOverlapState.ball.angle) > 0) := by
      have : pausedOverlapState.ball.angle = -(Real.pi / 2) := rfl
      rw [this, Real.sin_neg, Real.sin_pi_div_two, Real.arcsin_neg_one]
      have hpi := Real.pi_pos
      push_neg
      linarith
    simp only [hneg, if_false]
    norm_num [pausedOverlapState]
  refine ⟨hangle, rfl, ?_⟩
  rw [hangle]
  intro hcontra
  have hpi := Real.pi_pos
  have : pausedOverlapState.ball.angle = -(Real.pi / 2) := rfl
  rw [this] at hcontra
  linarith

/-- Witness for C8: a concrete paused, collision-free state is preserved
by the full frame. -/
theorem C8_paused_frame_identity_without_collisions_witness :
    frame pausedIdleState noInputs = pausedIdleState :=
  C8_paused_frame_identity_without_collisions pausedIdleState noInputs rfl rfl
    (by
      unfold detectCollisions detectBallWallCollision detectBallBrickCollision
        detectBallPaddleCollision detectPowerupPaddleCollision
      norm_num [pausedIdleState, BALL_RADIUS, PADDLE_HEIGHT])

/-! ## C4: the brick-side classification cascade. -/

/-- The side cascade as the claim words it, for comparison with the
source's `brickSide`.  Modelled from the spec: "bottom if the old ball's
bottom edge was at or above the brick's bottom edge; else top if the old
ball's top edge was at or below the brick's top edge; else right if the
old ball's left edge was at or beyond the brick's right edge; else left"
— the ball's bottom edge being `pos.y + BALL_RADIUS` and its top edge
`pos.y - BALL_RADIUS`, exactly as the detector itself names them
(`ballBottom`/`ballTop`), with "at or above"/"at or below" read as "at or
beyond, outward" (this reading also matches the spec's §8 example, where
a ball at (100,100) against a brick spanning y:[80,105] is classified
`bottom`). -/
noncomputable def specBrickSide (oldBall : Ball) (brick : Brick) : Side :=
  if oldBall.pos.y + BALL_RADIUS ≥ brick.pos.y + BRICK_HEIGHT / 2 then .bottom
  else if oldBall.pos.y - BALL_RADIUS ≤ brick.pos.y - BRICK_HEIGHT / 2 then .top
  else if oldBall.pos.x - BALL_RADIUS ≥ brick.pos.x + BRICK_WIDTH / 2 then .right
  else .left

/-- The brick of the spec's §8 example: centre (100, 92.5), so spanning
x:[75,125] and y:[80,105]. -/
def cascadeBrick : Brick := { pos := { x := 100, y := 92.5 }, powerup := none }

/-- A state whose ball (old and new) sits at (100,100), overlapping
`cascadeBrick` and straddling its bottom edge. -/
def brickOverlapState : GameState :=
  { isPaused := false, isServing := false
  , boundaries := { xMin := 0, xMax := 800, yMin := 0, yMax := 600 }
  , ball := { pos := { x := 100, y := 100 }, speed := 5, angle := 0 }
  , paddle := { pos := { x := 400, y := 580 }, width := 80, desiredWidth := 80 }
  , bricks := [cascadeBrick], score := (0, 0), powerups := [] }

/-- **C4 (counterexample).** For an old ball at (100,100) against the
brick spanning y:[80,105]: the old ball's bottom edge (107.5) is at or
beyond the brick's bottom edge (105), so the claim's cascade classifies
`bottom`, but the detector compares the old ball's TOP edge (92.5) with
the brick's bottom edge and falls through to `left`. -/
theorem C4_cascade_compares_opposite_edges :
    detectBallBrickCollision brickOverlapState brickOverlapState =
      [Collision.ballBrick 0 Side.left] ∧
    specBrickSide brickOverlapState.ball cascadeBrick = Side.bottom ∧
    Side.left ≠ Side.bottom := by
  refine ⟨?_, ?_, by simp⟩
  · unfold detectBallBrickCollision
    norm_num [brickOverlapState, cascadeBrick, ballBrickOverlap, brickSide,
      BALL_RADIUS, BRICK_WIDTH, BRICK_HEIGHT, List.range_succ, List.filterMap_cons,
      List.filterMap_nil, List.getElem?_cons_zero, Option.bind_eq_bind,
      Option.some_bind]
  · unfold specBrickSide
    norm_num [brickOverlapState, cascadeBrick, BALL_RADIUS, BRICK_HEIGHT]

/-- **C4 (amended).** A `ball.brick` event with index `i` and side `side`
is reported exactly when the new ball's box overlaps brick `i`'s box and
`side` is the cascade the detector computes from the OLD ball position
(`brickSide`): bottom if the old ball's TOP edge is at or beyond the
brick's bottom edge; else top if the old ball's BOTTOM edge is at or
beyond the brick's top edge; else right if the old ball's left edge is at
or beyond the brick's right edge; else left.  (The claim's cascade,
`specBrickSide`, compares the opposite vertical edges; see the
counterexample.) -/
theorem C4_brick_event_iff_overlap_and_code_side (s oldS : GameState) (i : ℕ)
    (brick : Brick) (side : Side) (h : s.bricks.get? i = some brick) :
    Collision.ballBrick i side ∈ detectCollisions s oldS ↔
      ballBrickOverlap s.ball brick ∧ side = brickSide oldS.ball brick := by
  have hi : i < s.bricks.length := by
    by_contra hlt
    push_neg at hlt
    rw [List.get?_eq_none.2 hlt] at h
    cases h
  unfold detectCollisions
  simp only [List.mem_append]
  constructor
  · rintro (((hw | hb) | hp) | hpu)
    · exfalso
      revert hw
      unfold detectBallWallCollision
      split_ifs <;> simp
    · unfold detectBallBrickCollision at hb
      simp only [List.mem_filterMap, List.mem_range] at hb
      obtain ⟨j, hj, hfj⟩ := hb
      cases hg : s.bricks.get? j with
      | none => rw [hg] at hfj; cases hfj
      | some b =>
        rw [hg] at hfj
        simp only [Option.some_bind] at hfj
        by_cases ho : ballBrickOverlap s.ball b
        · rw [if_pos ho] at hfj
          simp only [Option.some.injEq, Collision.ballBrick.injEq] at hfj
          obtain ⟨rfl, rfl⟩ := hfj
          rw [h] at hg
          obtain rfl := Option.some.inj hg
          exact ⟨ho, rfl⟩
        · rw [if_neg ho] at hfj
          cases hfj
    · exfalso
      revert hp
      unfold detectBallPaddleCollision
      split_ifs <;> simp
    · exfalso
      revert hpu
      unfold detectPowerupPaddleCollision
      simp only [List.mem_filterMap, List.mem_range]
      rintro ⟨j, hj, hfj⟩
      cases hg : s.powerups.get? j with
      | none => rw [hg] at hfj; cases hfj
      | some pu =>
        rw [hg] at hfj
        simp only [Option.some_bind] at hfj
        cases hpos : pu.pos with
        | none => rw [hpos] at hfj; cases hfj
        | some p =>
          rw [hpos] at hfj
          dsimp only at hfj
          revert hfj
          split_ifs <;> simp
  · rintro ⟨ho, rfl⟩
    refine Or.inl (Or.inl (Or.inr ?_))
    unfold detectBallBrickCollision
    simp only [List.mem_filterMap, List.mem_range]
    refine ⟨i, hi, ?_⟩
    rw [h]
    simp only [Option.some_bind]
    rw [if_pos ho]

/-- Witness for C4: at the concrete overlap state the reported event for
brick 0 carries the detector's cascade side. -/
theorem C4_brick_event_iff_overlap_and_code_side_witness :
    Collision.ballBrick 0 Side.left ∈
        detectCollisions brickOverlapState brickOverlapState ↔
      ballBrickOverlap brickOverlapState.ball cascadeBrick ∧
      Side.left = brickSide brickOverlapState.ball cascadeBrick :=
  C4_brick_event_iff_overlap_and_code_side brickOverlapState brickOverlapState 0
    cascadeBrick Side.left rfl

/-! ## C5: brick removal and stale indices. -/

/-- Resolving one `ball.brick` event erases exactly the brick at the
event's index from the (then-current) brick list. -/
theorem handleBallBrickCollision_bricks (i : ℕ) (side : Side) (s oldS : GameState) :
    (handleBallBrickCollision i side s oldS).bricks = s.bricks.eraseIdx i := by
  unfold handleBallBrickCollision
  cases side <;> dsimp only <;> split <;> first
    | rfl
    | (split <;> rfl)

def hitBrick0 : Brick := { pos := { x := 100, y := 92.5 }, powerup := none }
def hitBrick1 : Brick := { pos := { x := 150, y := 92.5 }, powerup := none }
def bystanderBrick : Brick := { pos := { x := 300, y := 92.5 }, powerup := none }

/-- An unpaused state whose ball (moving straight up at speed 5) will
overlap both `hitBrick0` and `hitBrick1` after one transition, while
`bystanderBrick` is far away. -/
noncomputable def staleIndexState : GameState :=
  { isPaused := false, isServing := false
  , boundaries := { xMin := 0, xMax := 800, yMin := 0, yMax := 600 }
  , ball := { pos := { x := 125, y := 97.5 }, speed := 5, angle := -(Real.pi / 2) }
  , paddle := { pos := { x := 400, y := 580 }, width := 80, desiredWidth := 80 }
  , bricks := [hitBrick0, hitBrick1, bystanderBrick], score := (0, 0), powerups := [] }

/-- **C5 (counterexample).** Detection reports hits on bricks 0 and 1.
Resolution erases index 0, shifting the list, and then erases index 1 of
the SHIFTED list — which is `bystanderBrick`, a brick that was never hit —
while `hitBrick1`, which was hit, survives. -/
theorem C5_two_brick_events_remove_wrong_brick :
    detectCollisions (updateState staleIndexState noInputs) staleIndexState =
      [Collision.ballBrick 0 Side.left, Collision.ballBrick 1 Side.left] ∧
    (frame staleIndexState noInputs).bricks = [hitBrick1] ∧
    bystanderBrick ∈ (updateState staleIndexState noInputs).bricks ∧
    bystanderBrick ∉ (frame staleIndexState noInputs).bricks := by
  have hx : (updateState staleIndexState noInputs).ball.pos.x = 125 := by
    norm_num [updateState, runUpdates, updatePause, updateBall, staleIndexState, noInputs,
      Real.cos_neg, Real.cos_pi_div_two]
  have hy : (updateState staleIndexState noInputs).ball.pos.y = 92.5 := by
    norm_num [updateState, runUpdates, updatePause, updateBall, staleIndexState, noInputs,
      Real.sin_neg, Real.sin_pi_div_two]
  have hbr : (updateState staleIndexState noInputs).bricks =
      [hitBrick0, hitBrick1, bystanderBrick] := by
    simp [updateState, runUpdates, updatePause, staleIndexState, noInputs]
  have hpw : (updateState staleIndexState noInputs).powerups = [] := by
    simp [updateState, runUpdates, updatePause, updatePowerups, staleIndexState, noInputs]
  have hpadx : (updateState staleIndexState noInputs).paddle.pos.x = 400 := by
    norm_num [updateState, runUpdates, updatePause, updatePaddle, staleIndexState, noInputs]
  have hpady : (updateState staleIndexState noInputs).paddle.pos.y = 580 := by
    norm_num [updateState, runUpdates, updatePause, updatePaddle, staleIndexState, noInputs]
  have hpadw : (updateState staleIndexState noInputs).paddle.width = 80 := by
    norm_num [updateState, runUpdates, updatePause, updatePaddle, updatePowerups,
      staleIndexState, noInputs]
  have hbnd : (updateState staleIndexState noInputs).boundaries =
      staleIndexState.boundaries := by
    simp [updateState, runUpdates, updatePause, staleIndexState, noInputs]
  have hdet : detectCollisions (updateState staleIndexState noInputs) staleIndexState =
      [Collision.ballBrick 0 Side.left, Collision.ballBrick 1 Side.left] := by
    have e1 : staleIndexState.ball.pos.x = 125 := rfl
    have e2 : staleIndexState.ball.pos.y = 97.5 := rfl
    have e3 : staleIndexState.boundaries.xMin = 0 := rfl
    have e4 : staleIndexState.boundaries.xMax = 800 := rfl
    have e5 : staleIndexState.boundaries.yMin = 0 := rfl
    have e6 : staleIndexState.boundaries.yMax = 600 := rfl
    unfold detectCollisions detectBallWallCollision detectBallBrickCollision
      detectBallPaddleCollision detectPowerupPaddleCollision
    rw [hbr, hpw, hbnd]
    norm_num [hx, hy, hpadx, hpady, hpadw, e1, e2, e3, e4, e5, e6, hitBrick0, hitBrick1,
      bystanderBrick, ballBrickOverlap, brickSide, BALL_RADIUS, BRICK_WIDTH, BRICK_HEIGHT,
      PADDLE_HEIGHT, List.range_succ, List.filterMap_cons, List.filterMap_nil,
      List.getElem?_cons_zero, List.getElem?_cons_succ, Option.some_bind]
  have hframe : (frame staleIndexState noInputs).bricks = [hitBrick1] := by
    rw [frame_eq, hdet]
    unfold handleCollisions
    simp only [List.foldl]
    rw [handleBallBrickCollision_bricks, handleBallBrickCollision_bricks, hbr]
    simp [List.eraseIdx]
  refine ⟨hdet, hframe, ?_, ?_⟩
  · rw [hbr]; simp
  · rw [hframe]
    simp only [List.mem_singleton]
    intro hcontra
    have : bystanderBrick.pos.x = hitBrick1.pos.x := by rw [hcontra]
    norm_num [bystanderBrick, hitBrick1] at this

/-- **C5 (amended).** When the frame's detected event set consists of a
single brick-hit event, resolution removes exactly that brick: the
resulting brick list is `eraseIdx` at the event's index, a sublist of the
old brick list — every brick either remains unchanged or is absent, none
is duplicated, and no unhit brick is removed.  With two or more brick-hit
events the indices of later events are stale after the first removal and
a brick that was not hit can be removed; see the counterexample. -/
theorem C5_single_brick_event_removes_exactly_that_brick (t oldS : GameState)
    (i : ℕ) (side : Side)
    (h : detectCollisions t oldS = [Collision.ballBrick i side]) :
    (handleCollisions (detectCollisions t oldS) t oldS).bricks = t.bricks.eraseIdx i ∧
    ((handleCollisions (detectCollisions t oldS) t oldS).bricks).Sublist t.bricks := by
  have hb : (handleCollisions (detectCollisions t oldS) t oldS).bricks =
      t.bricks.eraseIdx i := by
    rw [h]
    unfold handleCollisions
    simp only [List.foldl]
    exact handleBallBrickCollision_bricks i side t oldS
  exact ⟨hb, hb ▸ List.eraseIdx_sublist t.bricks i⟩

/-- Witness for C5: at the concrete one-brick overlap state, detection
reports exactly one brick-hit event and resolution removes that brick. -/
theorem C5_single_brick_event_removes_exactly_that_brick_witness :
    (handleCollisions (detectCollisions brickOverlapState brickOverlapState)
        brickOverlapState brickOverlapState).bricks =
      brickOverlapState.bricks.eraseIdx 0 ∧
    ((handleCollisions (detectCollisions brickOverlapState brickOverlapState)
        brickOverlapState brickOverlapState).bricks).Sublist brickOverlapState.bricks :=
  C5_single_brick_event_removes_exactly_that_brick brickOverlapState brickOverlapState 0
    Side.left
    (by
      unfold detectCollisions detectBallWallCollision detectBallBrickCollision
        detectBallPaddleCollision detectPowerupPaddleCollision
      norm_num [brickOverlapState, cascadeBrick, ballBrickOverlap, brickSide,
        BALL_RADIUS, BRICK_WIDTH, BRICK_HEIGHT, PADDLE_HEIGHT, List.range_succ,
        List.filterMap_cons, List.filterMap_nil, List.getElem?_cons_zero,
        Option.some_bind])

/-! ## C6: the ball–paddle bounce. -/

/-- **C6 (amended).** Resolving a ball–paddle collision sets the angle to
`-π/2 + tilt` or `π/2 - tilt` with
`tilt = π·(newBallX - oldPaddleX)/(oldPaddleWidth + 20)`, the branch chosen
by the sign of `sin` of the incoming (old) angle (the source's
`asin (sin θ) > 0` test is equivalent to `sin θ > 0`), and y is recomputed
from the old position using the new angle.  The resulting angle has
non-positive `sin` — an upward bounce — only in the `sin θ > 0` branch
(given `|tilt| ≤ π/2`); an incoming angle with `sin θ ≤ 0` (a ball moving
up) is sent DOWNWARD (`π/2 - tilt` has non-negative `sin` for small tilt),
not away from the paddle upward; see the counterexample. -/
theorem C6_paddle_bounce_characterisation (s oldS : GameState) :
    (handleBallPaddleCollision s oldS).ball.angle =
      (if 0 < Real.sin oldS.ball.angle then
        -(Real.pi / 2) +
          Real.pi * ((s.ball.pos.x - oldS.paddle.pos.x) / (oldS.paddle.width + 20))
      else
        Real.pi / 2 -
          Real.pi * ((s.ball.pos.x - oldS.paddle.pos.x) / (oldS.paddle.width + 20))) ∧
    (handleBallPaddleCollision s oldS).ball.pos.y =
      oldS.ball.pos.y +
        oldS.ball.speed * Real.sin ((handleBallPaddleCollision s oldS).ball.angle) ∧
    (0 < Real.sin oldS.ball.angle →
      |Real.pi * ((s.ball.pos.x - oldS.paddle.pos.x) / (oldS.paddle.width + 20))| ≤
        Real.pi / 2 →
      Real.sin ((handleBallPaddleCollision s oldS).ball.angle) ≤ 0) := by
  have hcond : (Real.arcsin (Real.sin oldS.ball.angle) > 0) =
      (0 < Real.sin oldS.ball.angle) := by
    rw [gt_iff_lt, Real.arcsin_pos]
  refine ⟨?_, ?_, ?_⟩
  · unfold handleBallPaddleCollision
    simp only [hcond]
  · unfold handleBallPaddleCollision
    simp only [hcond]
  · intro hsin htilt
    unfold handleBallPaddleCollision
    simp only [hcond, if_pos hsin]
    have heq : -(Real.pi / 2) +
        Real.pi * ((s.ball.pos.x - oldS.paddle.pos.x) / (oldS.paddle.width + 20)) =
        -(Real.pi / 2 -
          Real.pi * ((s.ball.pos.x - oldS.paddle.pos.x) / (oldS.paddle.width + 20))) := by
      ring
    rw [heq, Real.sin_neg, Real.sin_pi_div_two_sub, neg_nonpos]
    obtain ⟨h1, h2⟩ := abs_le.1 htilt
    exact Real.cos_nonneg_of_neg_pi_div_two_le_of_le (by linarith) h2

/-- A state whose ball moves straight up (`sin = -1 ≤ 0`) into the paddle
box from below. -/
noncomputable def upwardBallState : GameState :=
  { isPaused := false, isServing := false
  , boundaries := { xMin := 0, xMax := 800, yMin := 0, yMax := 600 }
  , ball := { pos := { x := 200, y := 512 }, speed := 5, angle := -(Real.pi / 2) }
  , paddle := { pos := { x := 200, y := 500 }, width := 80, desiredWidth := 80 }
  , bricks := [], score := (0, 0), powerups := [] }

/-- A state whose ball moves straight down (`sin = 1 > 0`) onto the
paddle centre, used as the witness input. -/
noncomputable def downwardBallHit : GameState :=
  { isPaused := false, isServing := false
  , boundaries := { xMin := 0, xMax := 800, yMin := 0, yMax := 600 }
  , ball := { pos := { x := 200, y := 500 }, speed := 5, angle := Real.pi / 2 }
  , paddle := { pos := { x := 200, y := 500 }, width := 80, desiredWidth := 80 }
  , bricks := [], score := (0, 0), powerups := [] }

/-- **C6 (counterexample).** A full frame in which a ball moving straight
up (incoming angle `-π/2`) collides with the paddle: the resolved angle is
`π/2`, whose `sin` is 1 > 0 — the ball leaves the collision moving DOWN,
not "away from the paddle — upward", so the resulting angle does not
always have non-positive sin. -/
theorem C6_upward_ball_bounces_downward :
    detectCollisions (updateState upwardBallState noInputs) upwardBallState =
      [Collision.ballPaddle] ∧
    (frame upwardBallState noInputs).ball.angle = Real.pi / 2 ∧
    0 < Real.sin ((frame upwardBallState noInputs).ball.angle) := by
  have hx : (updateState upwardBallState noInputs).ball.pos.x = 200 := by
    norm_num [updateState, runUpdates, updatePause, updateBall, upwardBallState, noInputs,
      Real.cos_neg, Real.cos_pi_div_two]
  have hy : (updateState upwardBallState noInputs).ball.pos.y = 507 := by
    norm_num [updateState, runUpdates, updatePause, updateBall, upwardBallState, noInputs,
      Real.sin_neg, Real.sin_pi_div_two]
  have hbr : (updateState upwardBallState noInputs).bricks = [] := by
    simp [updateState, runUpdates, updatePause, upwardBallState, noInputs]
  have hpw : (updateState upwardBallState noInputs).powerups = [] := by
    simp [updateState, runUpdates, updatePause, updatePowerups, upwardBallState, noInputs]
  have hpadx : (updateState upwardBallState noInputs).paddle.pos.x = 200 := by
    norm_num [updateState, runUpdates, updatePause, updatePaddle, upwardBallState, noInputs]
  have hpady : (updateState upwardBallState noInputs).paddle.pos.y = 500 := by
    norm_num [updateState, runUpdates, updatePause, updatePaddle, upwardBallState, noInputs]
  have hpadw : (updateState upwardBallState noInputs).paddle.width = 80 := by
    norm_num [updateState, runUpdates, updatePause, updatePaddle, updatePowerups,
      upwardBallState, noInputs]
  have hbnd : (updateState upwardBallState noInputs).boundaries =
      upwardBallState.boundaries := by
    simp [updateState, runUpdates, updatePause, upwardBallState, noInputs]
  have hdet : detectCollisions (updateState upwardBallState noInputs) upwardBallState =
      [Collision.ballPaddle] := by
    have e3 : upwardBallState.boundaries.xMin = 0 := rfl
    have e4 : upwardBallState.boundaries.xMax = 800 := rfl
    have e5 : upwardBallState.boundaries.yMin = 0 := rfl
    have e6 : upwardBallState.boundaries.yMax = 600 := rfl
    unfold detectCollisions detectBallWallCollision detectBallBrickCollision
      detectBallPaddleCollision detectPowerupPaddleCollision
    rw [hbr, hpw, hbnd]
    norm_num [hx, hy, hpadx, hpady, hpadw, e3, e4, e5, e6, BALL_RADIUS, PADDLE_HEIGHT]
  have hangle : (frame upwardBallState noInputs).ball.angle = Real.pi / 2 := by
    rw [frame_eq, hdet]
    unfold handleCollisions
    simp only [List.foldl]
    unfold handleBallPaddleCollision
    have hneg : ¬ (Real.arcsin (Real.sin upwardBallState.ball.angle) > 0) := by
      have e : upwardBallState.ball.angle = -(Real.pi / 2) := rfl
      rw [e, Real.sin_neg, Real.sin_pi_div_two, Real.arcsin_neg_one]
      have hpi := Real.pi_pos
      push_neg
      linarith
    simp only [hneg, if_false]
    have e7 : upwardBallState.paddle.pos.x = 200 := rfl
    have e8 : upwardBallState.paddle.width = 80 := rfl
    norm_num [hx, e7, e8]
  refine ⟨hdet, hangle, ?_⟩
  rw [hangle, Real.sin_pi_div_two]
  norm_num

/-- Witness for C6: at a concrete downward hit on the paddle centre the
implications' premises hold (`sin (π/2) = 1 > 0`, tilt 0), and the
resolved bounce is indeed upward. -/
theorem C6_paddle_bounce_characterisation_witness :
    Real.sin ((handleBallPaddleCollision downwardBallHit downwardBallHit).ball.angle) ≤ 0 :=
  (C6_paddle_bounce_characterisation downwardBallHit downwardBallHit).2.2
    (by
      have e : downwardBallHit.ball.angle = Real.pi / 2 := rfl
      rw [e, Real.sin_pi_div_two]
      norm_num)
    (by
      have e1 : downwardBallHit.ball.pos.x = 200 := rfl
      have e2 : downwardBallHit.paddle.pos.x = 200 := rfl
      have e3 : downwardBallHit.paddle.width = 80 := rfl
      rw [e1, e2, e3]
      norm_num
      positivity)

/-! ## C10: the powerup tick skips the element after a removal. -/

@[simp] theorem fallPowerup_pos_isSome (u : Powerup) :
    (fallPowerup u).pos.isSome = u.pos.isSome := by
  cases h : u.pos <;> simp [fallPowerup, h]

theorem runPowerups_cons_falling (u : Powerup) (l : List Powerup) (dw : ℝ)
    (h : u.pos.isSome) :
    runPowerups (u :: l) dw =
      (fallPowerup u :: (runPowerups l dw).1, (runPowerups l dw).2) := by
  rw [runPowerups.eq_def]
  dsimp only
  rw [if_pos h]

theorem runPowerups_cons_expired (p q : Powerup) (l : List Powerup) (dw : ℝ)
    (hp : p.pos = none) (ht : p.timer ≤ 1) :
    runPowerups (p :: q :: l) dw =
      (q :: (runPowerups l (dw - 10)).1, (runPowerups l (dw - 10)).2) := by
  rw [runPowerups.eq_def]
  dsimp only
  rw [if_neg (by simp [hp]), if_pos (by omega : p.timer - 1 ≤ 0)]

theorem runPowerups_cons_expired_last (p : Powerup) (dw : ℝ)
    (hp : p.pos = none) (ht : p.timer ≤ 1) :
    runPowerups [p] dw = ([], dw - 10) := by
  rw [runPowerups.eq_def]
  dsimp only
  rw [if_neg (by simp [hp]), if_pos (by omega : p.timer - 1 ≤ 0)]

/-- A prefix of falling powerups is processed by advancing each one, with
the removal bookkeeping happening only in the tail. -/
theorem runPowerups_falling_prefix (pre rest : List Powerup) (dw : ℝ)
    (hpre : ∀ u ∈ pre, u.pos.isSome) :
    runPowerups (pre ++ rest) dw =
      (pre.map fallPowerup ++ (runPowerups rest dw).1, (runPowerups rest dw).2) := by
  induction pre with
  | nil => simp
  | cons u pre ih =>
    have hu : u.pos.isSome = true := hpre u (by simp)
    have hrest : ∀ v ∈ pre, v.pos.isSome = true := fun v hv => hpre v (by simp [hv])
    rw [List.cons_append, runPowerups_cons_falling u (pre ++ rest) dw hu, ih hrest]
    simp

/-- **C10.** During the powerup tick, removing an expired dormant powerup
`p` at index `i = pre.length` (every earlier powerup falling, hence not
removed) makes the powerup `q` that shifts into its place be skipped for
the frame: the result keeps `q` verbatim at index `i` — its timer not
decremented, its position not advanced.  Consequently (second conjunct,
for `p`, `q` adjacent at the end of the list) two dormant powerups that
would both expire on the same frame are removed over two consecutive
frames, not one. -/
theorem C10_expired_powerup_removal_skips_next (s : GameState)
    (pre post : List Powerup) (p q : Powerup)
    (hsplit : s.powerups = pre ++ p :: q :: post)
    (hpre : ∀ u ∈ pre, u.pos.isSome)
    (hp : p.pos = none) (hpt : p.timer ≤ 1) :
    (updatePowerups s).powerups =
      pre.map fallPowerup ++ q :: (runPowerups post (s.paddle.desiredWidth - 10)).1 ∧
    (post = [] → q.pos = none → q.timer ≤ 1 →
      (updatePowerups (updatePowerups s)).powerups =
        (pre.map fallPowerup).map fallPowerup) := by
  have hrun : runPowerups s.powerups s.paddle.desiredWidth =
      (pre.map fallPowerup ++ q :: (runPowerups post (s.paddle.desiredWidth - 10)).1,
       (runPowerups post (s.paddle.desiredWidth - 10)).2) := by
    rw [hsplit, runPowerups_falling_prefix pre _ _ hpre,
      runPowerups_cons_expired p q post _ hp hpt]
  have h1 : (updatePowerups s).powerups =
      pre.map fallPowerup ++ q :: (runPowerups post (s.paddle.desiredWidth - 10)).1 := by
    show (runPowerups s.powerups s.paddle.desiredWidth).1 = _
    rw [hrun]
  refine ⟨h1, ?_⟩
  rintro rfl hq hqt
  have hdw : (updatePowerups s).paddle.desiredWidth =
      s.paddle.desiredWidth - 10 := by
    show (runPowerups s.powerups s.paddle.desiredWidth).2 = _
    rw [hrun]
    rfl
  have h2 : (updatePowerups s).powerups = pre.map fallPowerup ++ [q] := by
    rw [h1]; rfl
  have hpre2 : ∀ u ∈ pre.map fallPowerup, u.pos.isSome = true := by
    intro u hu
    obtain ⟨v, hv, rfl⟩ := List.mem_map.1 hu
    rw [fallPowerup_pos_isSome]
    exact hpre v hv
  show (runPowerups (updatePowerups s).powerups
      (updatePowerups s).paddle.desiredWidth).1 = _
  rw [h2, hdw, runPowerups_falling_prefix _ _ _ hpre2,
    runPowerups_cons_expired_last q _ hq hqt]
  simp

/-- A dormant powerup one tick from expiry. -/
def expiringPowerup : Powerup := { active := false, pos := none, timer := 1 }

/-- A state holding two adjacent dormant powerups that both expire on the
next tick. -/
def doubleExpiryState : GameState :=
  { isPaused := false, isServing := false
  , boundaries := { xMin := 0, xMax := 800, yMin := 0, yMax := 600 }
  , ball := { pos := { x := 100, y := 100 }, speed := 5, angle := 0 }
  , paddle := { pos := { x := 400, y := 580 }, width := 80, desiredWidth := 80 }
  , bricks := [], score := (0, 0), powerups := [expiringPowerup, expiringPowerup] }

/-- Witness for C10: with two adjacent expiring dormant powerups, the
first tick removes only the first one (the second survives, timer
untouched), and the second tick removes the survivor. -/
theorem C10_expired_powerup_removal_skips_next_witness :
    (updatePowerups doubleExpiryState).powerups = [expiringPowerup] ∧
    (updatePowerups (updatePowerups doubleExpiryState)).powerups = [] := by
  have h := C10_expired_powerup_removal_skips_next doubleExpiryState [] [] expiringPowerup
    expiringPowerup rfl (by simp) rfl (by norm_num [expiringPowerup])
  constructor
  · rw [h.1]; simp
  · rw [h.2 rfl rfl (by norm_num [expiringPowerup])]; simp
